import Mathlib

/-!
Verification development for the `extra_views` module
(`src/extra_views/views.py`).

The module contains two independent view-layer components:

* `MultiFormMixin` — processes one master model form plus a declared set
  of secondary forms and formsets in a single POST
  (`views.py` lines 10-227).
* `BetterListView` — a list view with free-text search, bulk actions
  (including the built-in `delete_selected`) and a `read_only` switch
  (`views.py` lines 230-436).

The embedding below mirrors the control flow of the Python code.  Side
effects (calling `is_valid`, saving entities) are recorded as an explicit
event trace, and every exceptional exit (Django `ImproperlyConfigured`,
`TypeError` from `_get_forms`, `AttributeError` from attribute lookup) is
an explicit response constructor.
-/

/-! ## MultiFormMixin: descriptors and form construction

In `_get_forms` (lines 98-144) every descriptor is looked up for a
`form_class` (or `formset_class`) entry; a missing entry raises
`ImproperlyConfigured`, and a callable entry that returns a falsy value
raises `TypeError`.  `FormClassSpec` records exactly these three
possibilities for one descriptor. -/

inductive FormClassSpec : Type
  | missing : FormClassSpec
  | direct : FormClassSpec
  | callable (returnsSomething : Bool) : FormClassSpec
  deriving DecidableEq, Repr

/-- Whether `setattr(extra_obj, fk_field, object)` at line 206 succeeds or
raises; a raise is swallowed by the bare `except: pass` at lines 207-208. -/
inductive FkAssign : Type
  | succeeds : FkAssign
  | raises : FkAssign
  deriving DecidableEq, Repr

def FkAssign.isSucc : FkAssign → Bool
  | .succeeds => true
  | .raises => false

/-- The foreign-key value stored on the secondary entity by
`extra_forms_valid` (lines 205-208): the saved master identity when the
assignment succeeds, nothing when the assignment raises. -/
def fkOf : FkAssign → Nat → Option Nat
  | .succeeds, mid => some mid
  | .raises, _ => none

/-- One secondary-form descriptor together with the behaviour of the form
it constructs.  `valid` is the outcome of `form.is_valid()`, `hasSave`
whether the form object has a callable `save` (line 201),
`hasForeignKeyField` / `hasFieldNameForObject` whether the corresponding
settings keys are present (line 203), and `fkAssign` the behaviour of the
`setattr` call (line 206).  The `save_m2m` call at lines 210-211 performs
no entity write relevant to the claims and is not modelled. -/
structure ExtraFormDesc : Type where
  formClass : FormClassSpec
  valid : Bool
  hasSave : Bool
  hasForeignKeyField : Bool
  hasFieldNameForObject : Bool
  fkAssign : FkAssign
  deriving DecidableEq, Repr

/-- One formset descriptor: construction specification plus the outcome of
`formset.is_valid()`.  Formsets always expose `save` and are re-bound to
the master entity before saving (lines 223-227). -/
structure FormsetDesc : Type where
  formClass : FormClassSpec
  valid : Bool
  deriving DecidableEq, Repr

/-- The two exceptions `_get_forms` can raise (lines 103-109). -/
inductive ConfigError : Type
  | improperlyConfigured (name : String) : ConfigError
  | typeError (name : String) : ConfigError
  deriving DecidableEq, Repr

/-- `_get_forms` over the extra-form descriptors (lines 98-144): iterate
the descriptor mapping in order; raise `ImproperlyConfigured` when no
class entry is present, raise `TypeError` when calling a callable entry
yields nothing, otherwise construct the form (the constructed form keeps
its descriptor as `form.settings`, so the descriptor itself stands for
the form). -/
def constructForms : List (String × ExtraFormDesc) → Except ConfigError (List (String × ExtraFormDesc))
  | [] => Except.ok []
  | (n, d) :: rest =>
    match d.formClass with
    | FormClassSpec.missing => Except.error (ConfigError.improperlyConfigured n)
    | FormClassSpec.direct =>
      match constructForms rest with
      | Except.error e => Except.error e
      | Except.ok fs => Except.ok ((n, d) :: fs)
    | FormClassSpec.callable b =>
      if b then
        match constructForms rest with
        | Except.error e => Except.error e
        | Except.ok fs => Except.ok ((n, d) :: fs)
      else Except.error (ConfigError.typeError n)

/-- `_get_forms` over the formset descriptors: the same construction
checks of lines 98-109 (the `is_formset` flag only changes which instance
is bound, which performs no write). -/
def constructFormsets : List (String × FormsetDesc) → Except ConfigError (List (String × FormsetDesc))
  | [] => Except.ok []
  | (n, d) :: rest =>
    match d.formClass with
    | FormClassSpec.missing => Except.error (ConfigError.improperlyConfigured n)
    | FormClassSpec.direct =>
      match constructFormsets rest with
      | Except.error e => Except.error e
      | Except.ok fs => Except.ok ((n, d) :: fs)
    | FormClassSpec.callable b =>
      if b then
        match constructFormsets rest with
        | Except.error e => Except.error e
        | Except.ok fs => Except.ok ((n, d) :: fs)
      else Except.error (ConfigError.typeError n)

/-! ## MultiFormMixin: the POST flow as an event trace -/

/-- An observable side effect of one POST: a validation call on a form, or
a persistence operation.  `saveExtra n fk` records that the entity of the
secondary form named `n` was saved carrying `fk` in its foreign-key
attribute; `saveFormset n mid` records that the formset named `n` was
saved bound to the master entity `mid`. -/
inductive Ev : Type
  | validateMaster (valid : Bool) : Ev
  | validateExtra (name : String) (valid : Bool) : Ev
  | validateFormset (name : String) (valid : Bool) : Ev
  | saveMaster (mid : Nat) : Ev
  | saveExtra (name : String) (fk : Option Nat) : Ev
  | saveFormset (name : String) (mid : Nat) : Ev
  deriving DecidableEq, Repr

def Ev.isSaveEv : Ev → Bool
  | .saveMaster _ => true
  | .saveExtra _ _ => true
  | .saveFormset _ _ => true
  | _ => false

def Ev.isValEv : Ev → Bool
  | .validateMaster _ => true
  | .validateExtra _ _ => true
  | .validateFormset _ _ => true
  | _ => false

/-- The possible outcomes of `MultiFormMixin.post` (lines 166-186): the
redirect produced by `form_valid`, the re-rendered page produced by
`form_invalid` (carrying the master validity and every constructed extra
form and formset, each of which exposes its own errors when rendered), a
construction exception from `_get_forms`, or the `ImproperlyConfigured`
exception from `extra_forms_valid` line 204. -/
inductive MResponse : Type
  | redirect (url : String) : MResponse
  | rerender (masterValid : Bool) (extras : List (String × ExtraFormDesc))
      (formsets : List (String × FormsetDesc)) : MResponse
  | configError (e : ConfigError) : MResponse
  | improperlyConfiguredSave (name : String) : MResponse
  deriving DecidableEq, Repr

def MResponse.isCfgErr : MResponse → Bool
  | .configError _ => true
  | _ => false

/-- `extra_forms_valid` (lines 198-211) on the already validated extra
forms: for each form exposing `save`, build the unsaved entity, raise
`ImproperlyConfigured` when neither `foreign_key_field` nor
`field_name_for_object` is configured, otherwise assign the foreign key
(swallowing any exception) and save the entity.  Returns the save events
emitted before a possible raise, and the name of the raising form. -/
def extraFormsValidRun (mid : Nat) : List (String × ExtraFormDesc) → List Ev × Option String
  | [] => ([], none)
  | (n, d) :: rest =>
    if d.hasSave then
      if !d.hasForeignKeyField && !d.hasFieldNameForObject then ([], some n)
      else
        let step := extraFormsValidRun mid rest
        (Ev.saveExtra n (fkOf d.fkAssign mid) :: step.1, step.2)
    else extraFormsValidRun mid rest

/-- Static configuration and form behaviour of one `MultiFormMixin` view
for one POST: the master form validity, the identity the master entity
receives when saved, the success URL, and the declared extra-form and
formset descriptor mappings. -/
structure MultiFormView : Type where
  masterValid : Bool
  masterId : Nat
  successUrl : String
  extras : List (String × ExtraFormDesc)
  formsets : List (String × FormsetDesc)
  deriving DecidableEq, Repr

/-- `MultiFormMixin.post` (lines 166-227) as a trace of events plus a
response.

Control flow mirrored from the source:
* line 173 is a Python `and` chain, so `extra_forms_is_valid` only runs
  when the master form is valid, and `formsets_is_valid` only runs when
  additionally every extra form is valid;
* `extra_forms_is_valid` and `formsets_is_valid` (lines 188-196, 213-221)
  call `is_valid` on every form of their group without early exit, and
  return the conjunction;
* on success (lines 174-177) `form_valid` saves the master and builds the
  redirect, then `extra_forms_valid` saves each secondary entity with the
  foreign key assigned to the saved master, then `formsets_valid` saves
  each formset bound to the saved master;
* on failure `form_invalid` (lines 185-186) re-renders via
  `get_context_data` (lines 156-164), which constructs the formsets first
  and the extra forms second; groups already constructed are cached
  (lines 146-154) and not rebuilt. -/
def multiPost (v : MultiFormView) : List Ev × MResponse :=
  if v.masterValid then
    match constructForms v.extras with
    | Except.error e => ([Ev.validateMaster true], MResponse.configError e)
    | Except.ok extras =>
      let evE := extras.map (fun p => Ev.validateExtra p.1 p.2.valid)
      if extras.all (fun p => p.2.valid) then
        match constructFormsets v.formsets with
        | Except.error e => (Ev.validateMaster true :: evE, MResponse.configError e)
        | Except.ok fsets =>
          let evF := fsets.map (fun p => Ev.validateFormset p.1 p.2.valid)
          if fsets.all (fun p => p.2.valid) then
            match extraFormsValidRun v.masterId extras with
            | (evS, some n) =>
              (Ev.validateMaster true :: (evE ++ evF ++ Ev.saveMaster v.masterId :: evS),
               MResponse.improperlyConfiguredSave n)
            | (evS, none) =>
              (Ev.validateMaster true ::
                (evE ++ evF ++ Ev.saveMaster v.masterId ::
                  (evS ++ fsets.map (fun p => Ev.saveFormset p.1 v.masterId))),
               MResponse.redirect v.successUrl)
          else
            (Ev.validateMaster true :: (evE ++ evF), MResponse.rerender true extras fsets)
      else
        match constructFormsets v.formsets with
        | Except.error e => (Ev.validateMaster true :: evE, MResponse.configError e)
        | Except.ok fsets =>
          (Ev.validateMaster true :: evE, MResponse.rerender true extras fsets)
  else
    match constructFormsets v.formsets with
    | Except.error e => ([Ev.validateMaster false], MResponse.configError e)
    | Except.ok fsets =>
      match constructForms v.extras with
      | Except.error e => ([Ev.validateMaster false], MResponse.configError e)
      | Except.ok extras => ([Ev.validateMaster false], MResponse.rerender false extras fsets)

/-! ## BetterListView: entities, search, bulk actions -/

/-- A stored entity as the list view sees it: a primary key and the values
of its text fields (field values as character lists, so that the
case-insensitive substring lookup is explicit). -/
structure LEntity : Type where
  pk : Nat
  fields : List (String × List Char)
  deriving DecidableEq, Repr

def fieldValue (e : LEntity) (f : String) : List Char :=
  (e.fields.lookup f).getD []

def lowerChars (s : List Char) : List Char :=
  s.map Char.toLower

def startsWith : List Char → List Char → Bool
  | [], _ => true
  | _ :: _, [] => false
  | a :: as, b :: bs => (a == b) && startsWith as bs

/-- Substring occurrence test: `containsSub hay needle` is true when
`needle` occurs contiguously inside `hay`. -/
def containsSub (hay needle : List Char) : Bool :=
  match hay with
  | [] => needle.isEmpty
  | _ :: t => startsWith needle hay || containsSub t needle

/-- The Django `field__icontains=q` lookup: case-insensitive substring. -/
def icontains (hay needle : List Char) : Bool :=
  containsSub (lowerChars hay) (lowerChars needle)

/-- One `filters = filters | Q(field__icontains=q)` step of
`get_queryset` line 363.  A Django `Q()` is the empty node (`none`), and
combining the empty node with `|` yields the other operand. -/
def qStep (q : List Char) (acc : Option (LEntity → Bool)) (f : String) : Option (LEntity → Bool) :=
  some (match acc with
    | none => fun e => icontains (fieldValue e f) q
    | some p => fun e => p e || icontains (fieldValue e f) q)

/-- The `filters` object built by the loop at lines 361-363, starting from
the empty `Q()`. -/
def buildFilters (q : List Char) (sf : List String) : Option (LEntity → Bool) :=
  sf.foldl (qStep q) none

/-- `queryset.filter(filters)`: filtering by the empty `Q()` keeps every
row. -/
def applyQ (o : Option (LEntity → Bool)) (e : LEntity) : Bool :=
  match o with
  | none => true
  | some p => p e

/-- `BetterListView.get_queryset` (lines 357-365): `q` is
`request.GET.get('q', '')`, so an absent parameter is the empty string;
a falsy (empty) `q` leaves the queryset untouched, otherwise the
disjunctive `icontains` filter over `search_fields` is applied. -/
def getQueryset (db : List LEntity) (q : List Char) (sf : List String) : List LEntity :=
  if q = [] then db
  else db.filter (fun e => applyQ (buildFilters q sf) e)

/-- Outcome of a bulk-action POST:

* `redirectIndex` — the redirect `redirect('%s_index' % prefix)`;
* `attributeError` — a raised `AttributeError`, either from the
  `self.read_only` lookup in `post` line 394 when the attribute was
  never defined, or from `getattr(self, action)` in `process_action`
  line 419 when no attribute of that name exists;
* `dispatchedAttr` — the `getattr` lookup found an attribute that is NOT
  the `delete_selected` handler (the action name collided with some
  other attribute of the view, such as `post`, `model` or `delete_url`)
  and `process_action` invoked it on the queryset.  What happens then is
  that attribute's own behaviour — a `TypeError` from a wrong arity, an
  unbounded recursion, or a returned value that is not a response — and
  performs no entity write in the code of this module; the embedding
  abstracts the whole case as this constructor. -/
inductive LResponse : Type
  | redirectIndex (route : String) : LResponse
  | attributeError (name : String) : LResponse
  | dispatchedAttr (name : String) : LResponse
  deriving DecidableEq, Repr

/-- `BetterListView.post` plus `process_action` and `delete_selected`
(lines 393-424), returning the resulting entity table and the response.

* `attrs` is the set of attribute names the view object exposes BESIDES
  `delete_selected` (which the class itself defines at line 422, so it
  is always present): the rest of the class body plus everything
  inherited from the Django `ListView` chain.  The embedding takes it as
  a parameter because the inherited part is open-ended.
* `readOnly` is the `read_only` attribute: `none` when no subclass ever
  set it (the class body at lines 349-355 defines `table_columns`,
  `actions`, `single_actions`, `search_fields` and `prefix` but no
  `read_only`), in which case the very first access at line 394 raises
  `AttributeError`.
* With `read_only` truthy the action block is skipped and the request is
  redirected to the index route.
* Otherwise an empty action name falls through to the same redirect;
  `process_action` re-checks `read_only` (false here) and dispatches
  `getattr(self, action)(queryset)`.  The name `delete_selected` finds
  the handler of lines 422-424, which deletes the queryset
  `model.objects.filter(pk__in=ids)` and redirects; a name matching
  some other attribute invokes that attribute (`dispatchedAttr`); a name
  matching no attribute makes the `getattr` lookup raise
  `AttributeError`. -/
def listPost (attrs : List String) (readOnly : Option Bool) (pfx : String) (db : List LEntity)
    (action : String) (ids : List Nat) : List LEntity × LResponse :=
  match readOnly with
  | none => (db, LResponse.attributeError "read_only")
  | some ro =>
    if ro then (db, LResponse.redirectIndex (pfx ++ "_index"))
    else
      if action = "" then (db, LResponse.redirectIndex (pfx ++ "_index"))
      else
        if action = "delete_selected" then
          (db.filter (fun e => !(ids.contains e.pk)),
           LResponse.redirectIndex (pfx ++ "_index"))
        else
          if attrs.contains action then (db, LResponse.dispatchedAttr action)
          else (db, LResponse.attributeError action)

/-- The `read_only` attribute as left by the `BetterListView` class body
(lines 349-355): never assigned, hence absent. -/
def betterListViewReadOnlyDefault : Option Bool := none

/-- The attribute names the `BetterListView` class body itself defines
besides the `delete_selected` handler (lines 349-436).  The attribute
namespace of a live view also contains every member inherited from the
Django `ListView` chain; this list is the part defined in this module
and is used as a concrete instantiation of the `attrs` parameter.  The
names relevant to the claims are only required to be absent: a made-up
action name such as `frobnicate` matches no attribute of the real view
either. -/
def betterListViewOtherAttrs : List String :=
  ["table_columns", "actions", "single_actions", "search_fields", "prefix",
   "get_queryset", "get_context_data", "post", "get_prefix", "get_table_columns",
   "get_actions", "get_single_actions", "get_search_fields", "process_action",
   "create_url", "detail_url", "edit_url", "delete_url"]

def LResponse.isRedirect : LResponse → Bool
  | .redirectIndex _ => true
  | _ => false

def isErr {α : Type} : Except ConfigError α → Bool
  | Except.error _ => true
  | Except.ok _ => false

/-! ## Concrete sample inputs used by witnesses and counterexamples -/

/-- A well-configured, valid secondary form: class given directly, valid,
has `save`, has `foreign_key_field`, assignment succeeds. -/
def okExtra : ExtraFormDesc :=
  ⟨FormClassSpec.direct, true, true, true, false, FkAssign.succeeds⟩

/-- Like `okExtra` but the `setattr` of the foreign key raises. -/
def raisingExtra : ExtraFormDesc :=
  ⟨FormClassSpec.direct, true, true, true, false, FkAssign.raises⟩

/-- Like `okExtra` but the form fails validation. -/
def invalidExtra : ExtraFormDesc :=
  ⟨FormClassSpec.direct, false, true, true, false, FkAssign.succeeds⟩

/-- A descriptor with no `form_class` entry at all. -/
def brokenExtra : ExtraFormDesc :=
  ⟨FormClassSpec.missing, true, true, true, false, FkAssign.succeeds⟩

def okFormset : FormsetDesc := ⟨FormClassSpec.direct, true⟩

def invalidFormset : FormsetDesc := ⟨FormClassSpec.direct, false⟩

def c1View : MultiFormView :=
  ⟨true, 5, "done", [("child", okExtra)], [("kids", okFormset)]⟩

def c2View : MultiFormView :=
  ⟨true, 5, "done", [("child", invalidExtra)], [("kids", okFormset)]⟩

def c3View : MultiFormView :=
  ⟨false, 5, "done", [("child", okExtra)], []⟩

def c3aView : MultiFormView :=
  ⟨true, 5, "done", [("child", okExtra)], [("kids", invalidFormset)]⟩

def c6View : MultiFormView :=
  ⟨true, 9, "fin", [("child", raisingExtra)], []⟩

def c7View : MultiFormView :=
  ⟨true, 3, "done", [("broken", brokenExtra)], []⟩

def entA : LEntity := ⟨1, [("name", ['a'])]⟩

def entB : LEntity := ⟨2, [("name", ['b'])]⟩

/-! ## Helper lemmas -/

theorem mapExtMem {α β : Type} (f g : α → β) :
    ∀ l : List α, (∀ a ∈ l, f a = g a) → l.map f = l.map g
  | [], _ => rfl
  | a :: l, h => by
    rw [List.map_cons, List.map_cons, h a (List.mem_cons_self a l),
      mapExtMem f g l (fun b hb => h b (List.mem_cons_of_mem a hb))]

/-- Closed form of `extraFormsValidRun` when every extra form exposes
`save` and has a foreign-key setting: every entity is saved, carrying the
foreign-key value determined by its `setattr` behaviour, and no exception
is raised. -/
theorem extraFormsValidRun_eq (mid : Nat) :
    ∀ l : List (String × ExtraFormDesc),
    (∀ p ∈ l, p.2.hasSave = true ∧ (p.2.hasForeignKeyField || p.2.hasFieldNameForObject) = true) →
    extraFormsValidRun mid l = (l.map (fun p => Ev.saveExtra p.1 (fkOf p.2.fkAssign mid)), none)
  | [], _ => rfl
  | (n, d) :: rest, h => by
    have h1 : d.hasSave = true := (h (n, d) (List.mem_cons_self _ _)).1
    have h2 : (d.hasForeignKeyField || d.hasFieldNameForObject) = true :=
      (h (n, d) (List.mem_cons_self _ _)).2
    have ih := extraFormsValidRun_eq mid rest (fun p hp => h p (List.mem_cons_of_mem _ hp))
    simp only [extraFormsValidRun, h1, if_true]
    rw [← Bool.not_or, h2]
    simp [ih]

theorem allNotSave_validateExtraMap :
    ∀ l : List (String × ExtraFormDesc),
    (l.map (fun p => Ev.validateExtra p.1 p.2.valid)).all (fun e => !e.isSaveEv) = true
  | [] => rfl
  | p :: l => by
    rw [List.map_cons, List.all_cons, allNotSave_validateExtraMap l]
    rfl

theorem allNotSave_validateFormsetMap :
    ∀ l : List (String × FormsetDesc),
    (l.map (fun p => Ev.validateFormset p.1 p.2.valid)).all (fun e => !e.isSaveEv) = true
  | [] => rfl
  | p :: l => by
    rw [List.map_cons, List.all_cons, allNotSave_validateFormsetMap l]
    rfl

theorem filterVal_validateExtraMap :
    ∀ l : List (String × ExtraFormDesc),
    (l.map (fun p => Ev.validateExtra p.1 p.2.valid)).filter Ev.isValEv =
      l.map (fun p => Ev.validateExtra p.1 p.2.valid)
  | [] => rfl
  | p :: l => by
    simp [List.filter_cons, Ev.isValEv, filterVal_validateExtraMap l]

theorem filterVal_validateFormsetMap :
    ∀ l : List (String × FormsetDesc),
    (l.map (fun p => Ev.validateFormset p.1 p.2.valid)).filter Ev.isValEv =
      l.map (fun p => Ev.validateFormset p.1 p.2.valid)
  | [] => rfl
  | p :: l => by
    simp [List.filter_cons, Ev.isValEv, filterVal_validateFormsetMap l]

theorem filterVal_runEvents (mid : Nat) :
    ∀ l : List (String × ExtraFormDesc),
    ((extraFormsValidRun mid l).1).filter Ev.isValEv = []
  | [] => rfl
  | (n, d) :: rest => by
    cases hs : d.hasSave
    · simp [extraFormsValidRun, hs, filterVal_runEvents mid rest]
    · cases hc : (!d.hasForeignKeyField && !d.hasFieldNameForObject)
      · simp [extraFormsValidRun, hs, hc, List.filter_cons, Ev.isValEv,
          filterVal_runEvents mid rest]
      · simp [extraFormsValidRun, hs, hc]

theorem filterVal_saveFormsetMap (mid : Nat) :
    ∀ l : List (String × FormsetDesc),
    (l.map (fun p => Ev.saveFormset p.1 mid)).filter Ev.isValEv = []
  | [] => rfl
  | p :: l => by
    simp [List.filter_cons, Ev.isValEv, filterVal_saveFormsetMap mid l]

/-- Pointwise description of the `Q` object folded up at lines 361-363,
applied to one row. -/
theorem applyQ_foldl (q : List Char) :
    ∀ (sf : List String) (p : LEntity → Bool) (e : LEntity),
    applyQ (sf.foldl (qStep q) (some p)) e =
      (p e || sf.any (fun g => icontains (fieldValue e g) q))
  | [], p, e => by simp [applyQ]
  | f :: sft, p, e => by
    rw [List.foldl_cons]
    have ih := applyQ_foldl q sft (fun x => p x || icontains (fieldValue x f) q) e
    simp only [qStep] at ih ⊢
    rw [ih]
    simp [List.any_cons, Bool.or_assoc]

/-! ## Claim theorems: BetterListView -/

/-- C4 (counterexample): the claim says that with a non-empty search term
the returned collection is exactly the subset of rows matching the
disjunction over the DECLARED search fields.  With no declared search
field that disjunction is everywhere false, so the claimed result is the
empty list; the code instead builds an empty `Q()` (line 361 with a loop
over zero fields) and `filter(Q())` keeps every row, returning the whole
collection.  At the concrete input below the code yields `[entA]` while
the claimed subset is `[]`. -/
theorem c4_search_counterexample :
    getQueryset [entA] ['x'] [] = [entA] ∧
    List.filter (fun e => ([] : List String).any (fun g => icontains (fieldValue e g) ['x'])) [entA] = [] :=
  ⟨rfl, rfl⟩

/-- C4 (amended): for every listing request, an absent-or-empty term
returns the unfiltered collection in order; a non-empty term with at
least one declared search field returns exactly the rows where some
declared field case-insensitively contains the term; a non-empty term
with NO declared search fields leaves the collection unfiltered (the
empty disjunction built from `Q()` keeps every row) rather than
returning the empty subset. -/
theorem c4_search_semantics (db : List LEntity) (q : List Char) (sf : List String) :
    getQueryset db [] sf = db ∧
    (q ≠ [] → getQueryset db q [] = db) ∧
    (q ≠ [] → sf ≠ [] →
      getQueryset db q sf =
        db.filter (fun e => sf.any (fun g => icontains (fieldValue e g) q))) := by
  refine ⟨by simp [getQueryset], ?_, ?_⟩
  · intro hq
    rw [getQueryset, if_neg hq]
    have hfun : (fun e => applyQ (buildFilters q []) e) = (fun _ : LEntity => true) := by
      funext e
      rfl
    rw [hfun]
    simp
  · intro hq hsf
    obtain ⟨f0, sft, rfl⟩ := List.exists_cons_of_ne_nil hsf
    rw [getQueryset, if_neg hq]
    have hfun : (fun e => applyQ (buildFilters q (f0 :: sft)) e) =
        (fun e => (f0 :: sft).any (fun g => icontains (fieldValue e g) q)) := by
      funext e
      rw [buildFilters, List.foldl_cons]
      have h0 : qStep q none f0 = some (fun x => icontains (fieldValue x f0) q) := rfl
      rw [h0, applyQ_foldl]
      simp [List.any_cons]
    rw [hfun]

/-- C4 (witness for the amended theorem): evaluated on a two-row table
with one declared field, a non-empty term returns exactly the matching
subset. -/
theorem c4_search_semantics_witness :
    getQueryset [entA, entB] ['b'] ["name"] =
      List.filter (fun e => ["name"].any (fun g => icontains (fieldValue e g) ['b'])) [entA, entB] :=
  (c4_search_semantics [entA, entB] ['b'] ["name"]).2.2 (by decide) (by decide)

/-- The collision case of `process_action` line 419, stated on its own:
a non-empty action name that is neither empty nor `delete_selected` but
does match some other attribute of the view is dispatched to that
attribute, with no entity operation and no redirect from this module. -/
theorem listPost_collision_dispatch (attrs : List String) (pfx : String)
    (db : List LEntity) (a : String) (ids : List Nat)
    (h1 : a ≠ "") (h2 : a ≠ "delete_selected") (h3 : attrs.contains a = true) :
    listPost attrs (some false) pfx db a ids = (db, LResponse.dispatchedAttr a) := by
  have h3m : a ∈ attrs := by simpa using h3
  simp [listPost, h1, h2, h3m]

/-- C5 (counterexample): the claim says a non-empty unrecognized action
name performs no operation and redirects without error.  In the code
`process_action` (line 419) dispatches with `getattr(self, action)`, and
for a name with no corresponding attribute that lookup raises
`AttributeError`: no redirect is produced.  Concretely, the action
`frobnicate` — which matches no attribute of the view, in the model as
in the real class — on a table with one row leaves the table intact but
yields the raised error, not a redirect. -/
theorem c5_unknown_action_counterexample :
    listPost betterListViewOtherAttrs (some false) "items" [entA] "frobnicate" [1] =
      ([entA], LResponse.attributeError "frobnicate") ∧
    (listPost betterListViewOtherAttrs (some false) "items" [entA] "frobnicate" [1]).2.isRedirect
      = false :=
  ⟨rfl, rfl⟩

/-- C5 (amended): a bulk-action POST carrying a non-empty action name that
matches NO attribute of the view performs no operation on any entity,
but it raises an attribute-lookup error instead of redirecting; only an
empty action name falls through to the redirect without effect.  (A
non-empty name that collides with some other existing attribute is
instead dispatched to that attribute — see
`listPost_collision_dispatch` — so nothing validates the name against a
fixed action set.) -/
theorem c5_unknown_action_raises (attrs : List String) (pfx : String) (db : List LEntity)
    (a : String) (ids : List Nat)
    (h1 : a ≠ "") (h2 : a ≠ "delete_selected") (h3 : attrs.contains a = false) :
    listPost attrs (some false) pfx db a ids = (db, LResponse.attributeError a) ∧
    listPost attrs (some false) pfx db "" ids =
      (db, LResponse.redirectIndex (pfx ++ "_index")) := by
  have h3m : a ∉ attrs := by simpa using h3
  constructor
  · simp [listPost, h1, h2, h3m]
  · simp [listPost]

/-- C5 (witness for the amended theorem): the name `frobnicate` is
non-empty, is not the handler name, and matches no attribute. -/
theorem c5_unknown_action_raises_witness :
    ("frobnicate" ≠ "" ∧ "frobnicate" ≠ "delete_selected" ∧
     betterListViewOtherAttrs.contains "frobnicate" = false) ∧
    (listPost betterListViewOtherAttrs (some false) "items" [entB] "frobnicate" [2] =
        ([entB], LResponse.attributeError "frobnicate") ∧
      listPost betterListViewOtherAttrs (some false) "items" [entB] "" [2] =
        ([entB], LResponse.redirectIndex ("items" ++ "_index"))) :=
  ⟨⟨by decide, by decide, by decide⟩,
    c5_unknown_action_raises betterListViewOtherAttrs "items" [entB] "frobnicate" [2]
      (by decide) (by decide) (by decide)⟩

/-- C8: a `delete_selected` bulk POST (with bulk actions enabled, i.e.
`read_only` set to false) deletes exactly the stored entities whose
primary key is in the submitted id list, keeps every other entity, and
redirects to the listing route: the surviving table is the filter of the
original by `pk` not selected, and membership in the result is
membership in the original minus the selected keys. -/
theorem c8_delete_selected_exact (attrs : List String) (pfx : String)
    (db : List LEntity) (ids : List Nat) :
    listPost attrs (some false) pfx db "delete_selected" ids =
      (db.filter (fun e => !(ids.contains e.pk)),
       LResponse.redirectIndex (pfx ++ "_index")) ∧
    ∀ e : LEntity,
      e ∈ (listPost attrs (some false) pfx db "delete_selected" ids).1 ↔
        (e ∈ db ∧ e.pk ∉ ids) := by
  constructor
  · simp [listPost]
  · intro e
    simp [listPost, List.mem_filter]

/-- C9: with the read-only flag set, every bulk-action POST leaves the
stored entities untouched, whatever the action name and ids, and
redirects to the listing route. -/
theorem c9_read_only_no_mutation (attrs : List String) (pfx : String) (db : List LEntity)
    (action : String) (ids : List Nat) :
    listPost attrs (some true) pfx db action ids =
      (db, LResponse.redirectIndex (pfx ++ "_index")) := by
  simp [listPost]

/-- C10: the `BetterListView` class body gives `read_only` no default, so
for a subclass that never sets the attribute every bulk-action POST
raises the attribute-lookup error at the `self.read_only` access of
line 394, before any action dispatch and before any redirect: the table
is unchanged and the response is the error, never a redirect. -/
theorem c10_read_only_is_mandatory (attrs : List String) (pfx : String) (db : List LEntity)
    (action : String) (ids : List Nat) :
    listPost attrs betterListViewReadOnlyDefault pfx db action ids =
      (db, LResponse.attributeError "read_only") ∧
    (listPost attrs betterListViewReadOnlyDefault pfx db action ids).2.isRedirect = false :=
  ⟨rfl, rfl⟩

/-! ## Claim theorems: MultiFormMixin -/

/-- C1: for a POST where the master form and all declared secondary forms
and formsets validate (and the secondary descriptors are well configured:
the forms expose `save`, carry a foreign-key setting, and the attribute
assignment succeeds), the full run is: every form validated, then the
master entity saved first, then each secondary entity saved with its
foreign-key attribute holding the saved master identity, then each
formset saved bound to the master, and the response is the redirect to
the success URL. -/
theorem c1_valid_post_saves_in_order (v : MultiFormView)
    (hmv : v.masterValid = true)
    (hE : constructForms v.extras = Except.ok v.extras)
    (hF : constructFormsets v.formsets = Except.ok v.formsets)
    (hAE : v.extras.all (fun p => p.2.valid) = true)
    (hAF : v.formsets.all (fun p => p.2.valid) = true)
    (hCfg : v.extras.all
      (fun p => p.2.hasSave && (p.2.hasForeignKeyField || p.2.hasFieldNameForObject)) = true)
    (hSucc : v.extras.all (fun p => p.2.fkAssign.isSucc) = true) :
    multiPost v =
      (Ev.validateMaster true ::
        (v.extras.map (fun p => Ev.validateExtra p.1 p.2.valid)
          ++ v.formsets.map (fun p => Ev.validateFormset p.1 p.2.valid)
          ++ Ev.saveMaster v.masterId ::
            (v.extras.map (fun p => Ev.saveExtra p.1 (some v.masterId))
              ++ v.formsets.map (fun p => Ev.saveFormset p.1 v.masterId))),
       MResponse.redirect v.successUrl) := by
  have hcfg : ∀ p ∈ v.extras,
      p.2.hasSave = true ∧ (p.2.hasForeignKeyField || p.2.hasFieldNameForObject) = true := by
    intro p hp
    have h := (List.all_eq_true.mp hCfg) p hp
    simp only [Bool.and_eq_true] at h
    exact h
  have hrun : extraFormsValidRun v.masterId v.extras =
      (v.extras.map (fun p => Ev.saveExtra p.1 (some v.masterId)), none) := by
    rw [extraFormsValidRun_eq v.masterId v.extras hcfg]
    refine congrArg (fun l => (l, none)) ?_
    apply mapExtMem
    intro p hp
    have hs := (List.all_eq_true.mp hSucc) p hp
    cases hfa : p.2.fkAssign
    · rfl
    · rw [hfa] at hs
      exact absurd hs (by simp [FkAssign.isSucc])
  simp [multiPost, hmv, hE, hAE, hF, hAF, hrun]

/-- C1 (witness): one secondary form and one formset, everything valid
and well configured. -/
theorem c1_valid_post_saves_in_order_witness :
    (c1View.masterValid = true ∧
     constructForms c1View.extras = Except.ok c1View.extras ∧
     constructFormsets c1View.formsets = Except.ok c1View.formsets ∧
     c1View.extras.all (fun p => p.2.valid) = true ∧
     c1View.formsets.all (fun p => p.2.valid) = true ∧
     c1View.extras.all
       (fun p => p.2.hasSave && (p.2.hasForeignKeyField || p.2.hasFieldNameForObject)) = true ∧
     c1View.extras.all (fun p => p.2.fkAssign.isSucc) = true) ∧
    multiPost c1View =
      (Ev.validateMaster true ::
        (c1View.extras.map (fun p => Ev.validateExtra p.1 p.2.valid)
          ++ c1View.formsets.map (fun p => Ev.validateFormset p.1 p.2.valid)
          ++ Ev.saveMaster c1View.masterId ::
            (c1View.extras.map (fun p => Ev.saveExtra p.1 (some c1View.masterId))
              ++ c1View.formsets.map (fun p => Ev.saveFormset p.1 c1View.masterId))),
       MResponse.redirect c1View.successUrl) :=
  ⟨⟨rfl, rfl, rfl, rfl, rfl, rfl, rfl⟩,
   c1_valid_post_saves_in_order c1View rfl rfl rfl rfl rfl rfl rfl⟩

/-- C2: for a POST where construction succeeds but at least one
participating form or formset is invalid, no save event of any kind is
emitted and the response is the re-rendered page carrying the master
form and every declared extra form and formset, each exposing its own
errors. -/
theorem c2_invalid_post_no_writes (v : MultiFormView)
    (hE : constructForms v.extras = Except.ok v.extras)
    (hF : constructFormsets v.formsets = Except.ok v.formsets)
    (hInv : ¬(v.masterValid = true ∧ v.extras.all (fun p => p.2.valid) = true ∧
        v.formsets.all (fun p => p.2.valid) = true)) :
    (multiPost v).2 = MResponse.rerender v.masterValid v.extras v.formsets ∧
    (multiPost v).1.all (fun e => !e.isSaveEv) = true := by
  cases hm : v.masterValid
  · have heq : multiPost v =
        ([Ev.validateMaster false], MResponse.rerender false v.extras v.formsets) := by
      simp [multiPost, hm, hE, hF]
    rw [heq]
    exact ⟨rfl, rfl⟩
  · cases hae : v.extras.all (fun p => p.2.valid)
    · have heq : multiPost v =
          (Ev.validateMaster true :: v.extras.map (fun p => Ev.validateExtra p.1 p.2.valid),
           MResponse.rerender true v.extras v.formsets) := by
        simp [multiPost, hm, hE, hae, hF]
      rw [heq]
      refine ⟨rfl, ?_⟩
      rw [List.all_cons, allNotSave_validateExtraMap v.extras]
      rfl
    · cases haf : v.formsets.all (fun p => p.2.valid)
      · have heq : multiPost v =
            (Ev.validateMaster true ::
              (v.extras.map (fun p => Ev.validateExtra p.1 p.2.valid)
                ++ v.formsets.map (fun p => Ev.validateFormset p.1 p.2.valid)),
             MResponse.rerender true v.extras v.formsets) := by
          simp [multiPost, hm, hE, hae, hF, haf]
        rw [heq]
        refine ⟨rfl, ?_⟩
        rw [List.all_cons, List.all_append, allNotSave_validateExtraMap v.extras,
          allNotSave_validateFormsetMap v.formsets]
        rfl
      · exact absurd ⟨hm, hae, haf⟩ hInv

/-- C2 (witness): master form valid, the single extra form invalid, the
formset valid: no save event, re-render with all forms. -/
theorem c2_invalid_post_no_writes_witness :
    (constructForms c2View.extras = Except.ok c2View.extras ∧
     constructFormsets c2View.formsets = Except.ok c2View.formsets ∧
     ¬(c2View.masterValid = true ∧ c2View.extras.all (fun p => p.2.valid) = true ∧
        c2View.formsets.all (fun p => p.2.valid) = true)) ∧
    ((multiPost c2View).2 = MResponse.rerender c2View.masterValid c2View.extras c2View.formsets ∧
     (multiPost c2View).1.all (fun e => !e.isSaveEv) = true) :=
  ⟨⟨rfl, rfl, by decide⟩, c2_invalid_post_no_writes c2View rfl rfl (by decide)⟩

/-- C3 (counterexample): the claim says every declared secondary form is
validated even when the master form is invalid.  Line 173 is a Python
short-circuiting `and`, so with an invalid master form
`extra_forms_is_valid` never runs: at the concrete view below one
secondary form is declared, yet the whole trace is the single master
validation and contains no secondary-form validation event. -/
theorem c3_short_circuit_counterexample :
    multiPost c3View =
      ([Ev.validateMaster false],
       MResponse.rerender false c3View.extras c3View.formsets) ∧
    c3View.extras = [("child", okExtra)] ∧
    Ev.validateExtra "child" okExtra.valid ∉ (multiPost c3View).1 := by
  refine ⟨rfl, rfl, ?_⟩
  decide

/-- C3 (amended): validation is collected without short-circuiting WITHIN
each group, but the three groups are chained by a short-circuiting
conjunction: the master form is always validated; every declared
secondary form is validated exactly when the master form is valid; every
declared formset is validated exactly when the master form and all
secondary forms are valid.  Stated as an equation on the subtrace of
validation events. -/
theorem c3_validation_grouped (v : MultiFormView)
    (hE : constructForms v.extras = Except.ok v.extras)
    (hF : constructFormsets v.formsets = Except.ok v.formsets) :
    (multiPost v).1.filter Ev.isValEv =
      Ev.validateMaster v.masterValid ::
        ((if v.masterValid then
            v.extras.map (fun p => Ev.validateExtra p.1 p.2.valid) else [])
          ++ (if v.masterValid && v.extras.all (fun p => p.2.valid) then
                v.formsets.map (fun p => Ev.validateFormset p.1 p.2.valid) else [])) := by
  cases hm : v.masterValid
  · have heq : (multiPost v).1 = [Ev.validateMaster false] := by
      simp [multiPost, hm, hE, hF]
    rw [heq]
    rfl
  · cases hae : v.extras.all (fun p => p.2.valid)
    · have heq : (multiPost v).1 =
          Ev.validateMaster true :: v.extras.map (fun p => Ev.validateExtra p.1 p.2.valid) := by
        simp [multiPost, hm, hE, hae, hF]
      rw [heq]
      simp [List.filter_cons, Ev.isValEv, filterVal_validateExtraMap v.extras]
    · cases haf : v.formsets.all (fun p => p.2.valid)
      · have heq : (multiPost v).1 =
            Ev.validateMaster true ::
              (v.extras.map (fun p => Ev.validateExtra p.1 p.2.valid)
                ++ v.formsets.map (fun p => Ev.validateFormset p.1 p.2.valid)) := by
          simp [multiPost, hm, hE, hae, hF, haf]
        rw [heq]
        simp [List.filter_cons, List.filter_append, Ev.isValEv,
          filterVal_validateExtraMap v.extras, filterVal_validateFormsetMap v.formsets]
      · rcases hrun : extraFormsValidRun v.masterId v.extras with ⟨evS, err⟩
        have hflt : evS.filter Ev.isValEv = [] := by
          have h0 := filterVal_runEvents v.masterId v.extras
          rw [hrun] at h0
          exact h0
        cases err
        · have heq : (multiPost v).1 =
              Ev.validateMaster true ::
                (v.extras.map (fun p => Ev.validateExtra p.1 p.2.valid)
                  ++ v.formsets.map (fun p => Ev.validateFormset p.1 p.2.valid)
                  ++ Ev.saveMaster v.masterId ::
                    (evS ++ v.formsets.map (fun p => Ev.saveFormset p.1 v.masterId))) := by
            simp [multiPost, hm, hE, hae, hF, haf, hrun]
          rw [heq]
          simp [List.filter_cons, List.filter_append, Ev.isValEv, hflt,
            filterVal_validateExtraMap v.extras, filterVal_validateFormsetMap v.formsets,
            filterVal_saveFormsetMap v.masterId v.formsets]
        · have heq : (multiPost v).1 =
              Ev.validateMaster true ::
                (v.extras.map (fun p => Ev.validateExtra p.1 p.2.valid)
                  ++ v.formsets.map (fun p => Ev.validateFormset p.1 p.2.valid)
                  ++ Ev.saveMaster v.masterId :: evS) := by
            simp [multiPost, hm, hE, hae, hF, haf, hrun]
          rw [heq]
          simp [List.filter_cons, List.filter_append, Ev.isValEv, hflt,
            filterVal_validateExtraMap v.extras, filterVal_validateFormsetMap v.formsets]

/-- C3 (witness for the amended theorem): master valid, one valid extra
form, one invalid formset; every group that the chain reaches is fully
validated. -/
theorem c3_validation_grouped_witness :
    (constructForms c3aView.extras = Except.ok c3aView.extras ∧
     constructFormsets c3aView.formsets = Except.ok c3aView.formsets) ∧
    (multiPost c3aView).1.filter Ev.isValEv =
      Ev.validateMaster c3aView.masterValid ::
        ((if c3aView.masterValid then
            c3aView.extras.map (fun p => Ev.validateExtra p.1 p.2.valid) else [])
          ++ (if c3aView.masterValid && c3aView.extras.all (fun p => p.2.valid) then
                c3aView.formsets.map (fun p => Ev.validateFormset p.1 p.2.valid) else [])) :=
  ⟨⟨rfl, rfl⟩, c3_validation_grouped c3aView rfl rfl⟩

/-- C6: on the fully valid path, a secondary form whose foreign-key
`setattr` raises still has its entity persisted — the exception is
swallowed by the bare `except: pass` of lines 207-208 — only without the
foreign key set, and the redirect is still returned.  The trace equation
records each secondary save with `fkOf`, and the final conjunct
exhibits the saved-without-foreign-key event for every raising form. -/
theorem c6_fk_assignment_swallowed (v : MultiFormView)
    (hmv : v.masterValid = true)
    (hE : constructForms v.extras = Except.ok v.extras)
    (hF : constructFormsets v.formsets = Except.ok v.formsets)
    (hAE : v.extras.all (fun p => p.2.valid) = true)
    (hAF : v.formsets.all (fun p => p.2.valid) = true)
    (hCfg : v.extras.all
      (fun p => p.2.hasSave && (p.2.hasForeignKeyField || p.2.hasFieldNameForObject)) = true) :
    multiPost v =
      (Ev.validateMaster true ::
        (v.extras.map (fun p => Ev.validateExtra p.1 p.2.valid)
          ++ v.formsets.map (fun p => Ev.validateFormset p.1 p.2.valid)
          ++ Ev.saveMaster v.masterId ::
            (v.extras.map (fun p => Ev.saveExtra p.1 (fkOf p.2.fkAssign v.masterId))
              ++ v.formsets.map (fun p => Ev.saveFormset p.1 v.masterId))),
       MResponse.redirect v.successUrl) ∧
    ∀ n d, (n, d) ∈ v.extras → d.fkAssign = FkAssign.raises →
      Ev.saveExtra n none ∈ (multiPost v).1 := by
  have hcfg : ∀ p ∈ v.extras,
      p.2.hasSave = true ∧ (p.2.hasForeignKeyField || p.2.hasFieldNameForObject) = true := by
    intro p hp
    have h := (List.all_eq_true.mp hCfg) p hp
    simp only [Bool.and_eq_true] at h
    exact h
  have hrun := extraFormsValidRun_eq v.masterId v.extras hcfg
  have heq : multiPost v =
      (Ev.validateMaster true ::
        (v.extras.map (fun p => Ev.validateExtra p.1 p.2.valid)
          ++ v.formsets.map (fun p => Ev.validateFormset p.1 p.2.valid)
          ++ Ev.saveMaster v.masterId ::
            (v.extras.map (fun p => Ev.saveExtra p.1 (fkOf p.2.fkAssign v.masterId))
              ++ v.formsets.map (fun p => Ev.saveFormset p.1 v.masterId))),
       MResponse.redirect v.successUrl) := by
    simp [multiPost, hmv, hE, hAE, hF, hAF, hrun]
  refine ⟨heq, ?_⟩
  intro n d hmem hra
  have hsm : Ev.saveExtra n none ∈
      v.extras.map (fun p => Ev.saveExtra p.1 (fkOf p.2.fkAssign v.masterId)) := by
    refine List.mem_map.mpr ⟨(n, d), hmem, ?_⟩
    rw [hra]
    rfl
  rw [heq]
  exact List.mem_cons_of_mem _
    (List.mem_append.mpr (Or.inr
      (List.mem_cons_of_mem _ (List.mem_append.mpr (Or.inl hsm)))))

/-- C6 (witness): a single well-configured secondary form whose foreign
key assignment raises; its entity is still saved, with no foreign key. -/
theorem c6_fk_assignment_swallowed_witness :
    (c6View.masterValid = true ∧
     constructForms c6View.extras = Except.ok c6View.extras ∧
     constructFormsets c6View.formsets = Except.ok c6View.formsets ∧
     c6View.extras.all (fun p => p.2.valid) = true ∧
     c6View.formsets.all (fun p => p.2.valid) = true ∧
     c6View.extras.all
       (fun p => p.2.hasSave && (p.2.hasForeignKeyField || p.2.hasFieldNameForObject)) = true) ∧
    (("child", raisingExtra) ∈ c6View.extras ∧ raisingExtra.fkAssign = FkAssign.raises) ∧
    Ev.saveExtra "child" none ∈ (multiPost c6View).1 :=
  ⟨⟨rfl, rfl, rfl, rfl, rfl, rfl⟩,
   ⟨List.mem_cons_self _ _, rfl⟩,
   (c6_fk_assignment_swallowed c6View rfl rfl rfl rfl rfl rfl).2 "child" raisingExtra
     (List.mem_cons_self _ _) rfl⟩

/-- C7 (counterexample): the claim says a descriptor whose construction
class is missing causes a hard failure before ANY validation.  In `post`
(line 173) the master form is validated before `extra_forms_is_valid`
constructs the extra forms, so at the concrete view below the trace
already contains the master validation event when the
`ImproperlyConfigured` exception surfaces. -/
theorem c7_config_error_counterexample :
    multiPost c7View =
      ([Ev.validateMaster true],
       MResponse.configError (ConfigError.improperlyConfigured "broken")) := rfl

/-- C7 (amended): a secondary form or formset descriptor whose
construction class is missing, or whose construction callable returns
nothing, causes a hard failure (an exception, never a per-field
validation error) surfaced at request time before any persistence: the
response is the raised construction exception and the trace holds no
save event.  (The master form, and any group constructed earlier, may
already have been validated first.) -/
theorem c7_config_error_no_writes (v : MultiFormView)
    (h : (isErr (constructForms v.extras) || isErr (constructFormsets v.formsets)) = true) :
    (multiPost v).2.isCfgErr = true ∧
    (multiPost v).1.all (fun e => !e.isSaveEv) = true := by
  cases hm : v.masterValid
  · cases hcf : constructFormsets v.formsets with
    | error e =>
      have heq : multiPost v = ([Ev.validateMaster false], MResponse.configError e) := by
        simp [multiPost, hm, hcf]
      rw [heq]
      exact ⟨rfl, rfl⟩
    | ok fs =>
      cases hce : constructForms v.extras with
      | error e =>
        have heq : multiPost v = ([Ev.validateMaster false], MResponse.configError e) := by
          simp [multiPost, hm, hcf, hce]
        rw [heq]
        exact ⟨rfl, rfl⟩
      | ok ex =>
        rw [hce, hcf] at h
        simp [isErr] at h
  · cases hce : constructForms v.extras with
    | error e =>
      have heq : multiPost v = ([Ev.validateMaster true], MResponse.configError e) := by
        simp [multiPost, hm, hce]
      rw [heq]
      exact ⟨rfl, rfl⟩
    | ok ex =>
      cases hae : ex.all (fun p => p.2.valid)
      · cases hcf : constructFormsets v.formsets with
        | error e =>
          have heq : multiPost v =
              (Ev.validateMaster true :: ex.map (fun p => Ev.validateExtra p.1 p.2.valid),
               MResponse.configError e) := by
            simp [multiPost, hm, hce, hae, hcf]
          rw [heq]
          refine ⟨rfl, ?_⟩
          rw [List.all_cons, allNotSave_validateExtraMap ex]
          rfl
        | ok fs =>
          rw [hce, hcf] at h
          simp [isErr] at h
      · cases hcf : constructFormsets v.formsets with
        | error e =>
          have heq : multiPost v =
              (Ev.validateMaster true :: ex.map (fun p => Ev.validateExtra p.1 p.2.valid),
               MResponse.configError e) := by
            simp [multiPost, hm, hce, hae, hcf]
          rw [heq]
          refine ⟨rfl, ?_⟩
          rw [List.all_cons, allNotSave_validateExtraMap ex]
          rfl
        | ok fs =>
          rw [hce, hcf] at h
          simp [isErr] at h

/-- C7 (witness for the amended theorem): the descriptor with a missing
construction class yields the construction exception and a write-free
trace. -/
theorem c7_config_error_no_writes_witness :
    (isErr (constructForms c7View.extras) || isErr (constructFormsets c7View.formsets)) = true ∧
    ((multiPost c7View).2.isCfgErr = true ∧
     (multiPost c7View).1.all (fun e => !e.isSaveEv) = true) :=
  ⟨rfl, c7_config_error_no_writes c7View rfl⟩
